import Mathlib

/-
Verification of the Shopify ParcelX proxy relay handler (index.js).

The handler at GET /apps/parceltrack is embedded as a pure Lean function.
JavaScript strings (the inbound channel_order_no query value) are modelled
as lists of UTF-16 code units, so that lone surrogates - which make
encodeURIComponent throw a URIError - are representable.  The upstream
fetch is external, so the handler takes the outcome of the (single)
outbound call as a parameter; the result records the outbound request
actually issued, if any, so that absence of an outbound call is provable.
The raw upstream body is inspected by the code only through JSON.parse
(success with a value, or throw), so it is represented by that outcome.
-/

namespace ParcelXProxy

/-- A JavaScript string, as its list of UTF-16 code units. -/
abbrev JSStr := List Nat

/-- Truthiness test of the optional query value req.query.channel_order_no:
the guard `if (!orderId)` fires when the parameter is absent (undefined)
or the empty string. -/
def strFalsy : Option JSStr → Bool
  | none => true
  | some u => u.isEmpty

/-- Truthiness test of the configured PARCELX_API_TOKEN: the guard
`if (!PARCELX_API_TOKEN)` fires when the environment variable is unset
(undefined) or the empty string. -/
def tokenFalsy : Option String → Bool
  | none => true
  | some t => t.isEmpty

/-- JavaScript `a || b` on status numbers: a nonzero number is truthy. -/
def jsOrNat (a b : Nat) : Nat :=
  if a ≠ 0 then a else b

/-- Uppercase hexadecimal digit, as used by percent-encoding. -/
def hexDigitChar (n : Nat) : Char :=
  if n < 10 then Char.ofNat (48 + n) else Char.ofNat (55 + n)

/-- Percent-encoding of one byte, e.g. 32 becomes "%20". -/
def percentByte (b : Nat) : String :=
  String.mk ['%', hexDigitChar (b / 16), hexDigitChar (b % 16)]

/-- UTF-8 encoding of a Unicode code point, as a list of byte values. -/
def utf8Bytes (v : Nat) : List Nat :=
  if v < 0x80 then [v]
  else if v < 0x800 then [0xC0 + v / 0x40, 0x80 + v % 0x40]
  else if v < 0x10000 then
    [0xE0 + v / 0x1000, 0x80 + (v / 0x40) % 0x40, 0x80 + v % 0x40]
  else
    [0xF0 + v / 0x40000, 0x80 + (v / 0x1000) % 0x40,
     0x80 + (v / 0x40) % 0x40, 0x80 + v % 0x40]

/-- Percent-encoded UTF-8 form of a code point. -/
def pctEncode (v : Nat) : String :=
  String.join ((utf8Bytes v).map percentByte)

/-- Code units left unescaped by encodeURIComponent: ASCII alphanumerics
and - _ . ! ~ * ' ( ) (the ECMAScript uriUnescaped set). -/
def isUriUnescaped (c : Nat) : Bool :=
  (65 ≤ c && c ≤ 90) || (97 ≤ c && c ≤ 122) || (48 ≤ c && c ≤ 57) ||
  c == 45 || c == 95 || c == 46 || c == 33 || c == 126 ||
  c == 42 || c == 39 || c == 40 || c == 41

/-- The ECMAScript encodeURIComponent builtin on a UTF-16 code-unit list.
Unescaped units pass through; surrogate pairs are combined and the code
point is percent-encoded as UTF-8; a lone surrogate throws URIError,
modelled as Except.error. -/
def encodeURIComponent : JSStr → Except Unit String
  | [] => .ok ""
  | c :: rest =>
    if isUriUnescaped c then
      match encodeURIComponent rest with
      | .ok s => .ok (String.singleton (Char.ofNat c) ++ s)
      | .error e => .error e
    else if 0xDC00 ≤ c ∧ c ≤ 0xDFFF then .error ()
    else if 0xD800 ≤ c ∧ c ≤ 0xDBFF then
      match rest with
      | [] => .error ()
      | c2 :: rest2 =>
        if 0xDC00 ≤ c2 ∧ c2 ≤ 0xDFFF then
          match encodeURIComponent rest2 with
          | .ok s =>
            .ok (pctEncode ((c - 0xD800) * 0x400 + (c2 - 0xDC00) + 0x10000) ++ s)
          | .error e => .error e
        else .error ()
    else
      match encodeURIComponent rest with
      | .ok s => .ok (pctEncode c ++ s)
      | .error e => .error e

/-- A JSON value, the shape of parsed upstream bodies and of the
handler's own error envelopes. -/
inductive Json where
  | null : Json
  | bool (b : Bool) : Json
  | num (n : Int) : Json
  | str (s : String) : Json
  | arr (elems : List Json) : Json
  | obj (fields : List (String × Json)) : Json

/-- Whether a JSON value is an object. -/
def Json.isObj : Json → Bool
  | .obj _ => true
  | _ => false

/-- The handler's error envelope { error: msg }. -/
def errObj (msg : String) : Json :=
  .obj [("error", .str msg)]

/-- Outcome of the single outbound fetch, as the handler can observe it:
the fetch promise rejects (network/DNS/TLS failure); the response heads
arrive but reading the body text rejects; or the body text is fully read
and JSON.parse on it either throws (none) or yields a value (some). -/
inductive UpstreamOutcome where
  | fetchReject : UpstreamOutcome
  | textReject (status : Nat) : UpstreamOutcome
  | done (status : Nat) (parsed : Option Json) : UpstreamOutcome

/-- The outbound HTTP request the handler issues to ParcelX. -/
structure OutboundRequest where
  method : String
  url : String
  headers : List (String × String)
  reqBody : Option String

/-- An HTTP response produced by the handler (status plus JSON body). -/
structure HttpResponse where
  status : Nat
  body : Json

/-- Result of one handler run: the response sent, and the outbound
request issued upstream, if the execution reached the fetch call. -/
structure HandlerResult where
  response : HttpResponse
  sent : Option OutboundRequest

/-- The startup configuration read from the environment:
PARCELX_API_URL_BASE (with its default already applied, hence a plain
string) and PARCELX_API_TOKEN (possibly unset). -/
structure Config where
  apiUrlBase : String
  apiToken : Option String

/-- The GET /apps/parceltrack relay handler of index.js, line by line:
validate orderId (400), validate the token (500), build the upstream URL
with encodeURIComponent (outside the try block, so a URIError escapes the
handler, modelled as Except.error), then fetch.  A rejected fetch or a
rejected body read is caught by the outer catch (503); a body that fails
JSON.parse yields the invalid-response envelope with status
apiResponse.status || 502; a parsed body is passed through verbatim with
the upstream status. -/
def handle (cfg : Config) (orderId : Option JSStr) (upstream : UpstreamOutcome) :
    Except Unit HandlerResult :=
  if strFalsy orderId then
    .ok ⟨⟨400, errObj "Order ID (channel_order_no) is required."⟩, none⟩
  else if tokenFalsy cfg.apiToken then
    .ok ⟨⟨500, errObj "Tracking service API token configuration error on server. Please contact support."⟩, none⟩
  else
    match encodeURIComponent (orderId.getD []) with
    | .error e => .error e
    | .ok enc =>
      let req : OutboundRequest :=
        { method := "GET"
          url := cfg.apiUrlBase ++ "?channel_order_no=" ++ enc
          headers := [("Content-Type", "application/json"),
                      ("Accept", "application/json"),
                      ("access-token", cfg.apiToken.getD "")]
          reqBody := none }
      match upstream with
      | .fetchReject =>
        .ok ⟨⟨503, errObj "Service Unavailable. Failed to connect to the tracking service via proxy."⟩, some req⟩
      | .textReject _ =>
        .ok ⟨⟨503, errObj "Service Unavailable. Failed to connect to the tracking service via proxy."⟩, some req⟩
      | .done status parsed =>
        match parsed with
        | none =>
          .ok ⟨⟨jsOrNat status 502,
                errObj ("Received an invalid response from the upstream tracking service. Status: " ++ toString status)⟩,
               some req⟩
        | some v => .ok ⟨⟨status, v⟩, some req⟩

/-- A sequence of independent handler runs: the server keeps no state
between requests, so a batch is just a map. -/
def handleAll (reqs : List (Config × Option JSStr × UpstreamOutcome)) :
    List (Except Unit HandlerResult) :=
  reqs.map (fun t => handle t.1 t.2.1 t.2.2)

/-- The default ParcelX base URL, used by the concrete witness scenarios. -/
def demoBase : String := "https://app.parcelx.in/api/v1/track_order"

/-- A configuration with the token set, for witness scenarios. -/
def demoCfg : Config := ⟨demoBase, some "tok"⟩

/-- The outbound request the handler builds under demoCfg for a given
encoded order id, for witness scenarios. -/
def demoReq (enc : String) : OutboundRequest :=
  ⟨"GET", demoBase ++ "?channel_order_no=" ++ enc,
   [("Content-Type", "application/json"), ("Accept", "application/json"),
    ("access-token", "tok")], none⟩

/-- Characterization of the response of any handler run that issued the
outbound call, by the upstream outcome. -/
lemma handle_sent_response (cfg : Config) (orderId : Option JSStr)
    (up : UpstreamOutcome) (r : HandlerResult)
    (h : handle cfg orderId up = .ok r) (hs : r.sent.isSome) :
    r.response =
      match up with
      | .fetchReject =>
        ⟨503, errObj "Service Unavailable. Failed to connect to the tracking service via proxy."⟩
      | .textReject _ =>
        ⟨503, errObj "Service Unavailable. Failed to connect to the tracking service via proxy."⟩
      | .done s none =>
        ⟨jsOrNat s 502,
         errObj ("Received an invalid response from the upstream tracking service. Status: " ++ toString s)⟩
      | .done s (some v) => ⟨s, v⟩ := by
  unfold handle at h
  split at h
  · injection h with h
    subst h
    simp at hs
  · split at h
    · injection h with h
      subst h
      simp at hs
    · split at h
      · exact Except.noConfusion h
      · cases up with
        | fetchReject =>
          injection h with h
          subst h
          rfl
        | textReject st =>
          injection h with h
          subst h
          rfl
        | done s p =>
          cases p with
          | none =>
            injection h with h
            subst h
            rfl
          | some v =>
            injection h with h
            subst h
            rfl

/-- C1: for every request with a non-empty orderId, a configured
credential, and an upstream reply whose raw body parses as JSON (here:
the run issued the outbound call and observed outcome done with a parsed
value), the handler responds with the upstream status and the parsed
JSON unchanged, including non-2xx statuses such as 404. -/
theorem relay_parse_success_passthrough (cfg : Config) (orderId : Option JSStr)
    (s : Nat) (v : Json) (r : HandlerResult)
    (h : handle cfg orderId (.done s (some v)) = .ok r) (hs : r.sent.isSome) :
    r.response = ⟨s, v⟩ :=
  handle_sent_response cfg orderId (.done s (some v)) r h hs

/-- C1 witness: upstream 404 with JSON body yields response 404 with that
body verbatim. -/
theorem relay_parse_success_passthrough_witness :
    (⟨⟨404, Json.obj [("error", Json.str "not found")]⟩,
      some (demoReq "AB")⟩ : HandlerResult).response =
      ⟨404, Json.obj [("error", Json.str "not found")]⟩ :=
  relay_parse_success_passthrough demoCfg (some [65, 66]) 404
    (Json.obj [("error", Json.str "not found")]) _ rfl rfl

/-- C2: for every request where the upstream body fails JSON.parse (the
run issued the outbound call and observed outcome done with no parsed
value), the handler responds with the upstream status when nonzero and
502 otherwise, with the invalid-response error envelope mentioning the
upstream status. -/
theorem relay_parse_failure_envelope (cfg : Config) (orderId : Option JSStr)
    (s : Nat) (r : HandlerResult)
    (h : handle cfg orderId (.done s none) = .ok r) (hs : r.sent.isSome) :
    r.response =
      ⟨if s ≠ 0 then s else 502,
       errObj ("Received an invalid response from the upstream tracking service. Status: " ++ toString s)⟩ :=
  handle_sent_response cfg orderId (.done s none) r h hs

/-- C2 witness: upstream 200 with an unparseable body yields response 200
(not 502) with the error envelope naming status 200. -/
theorem relay_parse_failure_envelope_witness :
    (⟨⟨200, errObj "Received an invalid response from the upstream tracking service. Status: 200"⟩,
      some (demoReq "AB")⟩ : HandlerResult).response =
      ⟨if (200 : Nat) ≠ 0 then 200 else 502,
       errObj ("Received an invalid response from the upstream tracking service. Status: " ++ toString (200 : Nat))⟩ :=
  relay_parse_failure_envelope demoCfg (some [65, 66]) 200 _ rfl rfl

/-- C3: for every request whose channel_order_no is absent or empty, the
handler responds 400 with the exact error body, issues no outbound call,
and this holds for every configuration (the orderId check precedes the
credential check). -/
theorem relay_missing_orderId (cfg : Config) (orderId : Option JSStr)
    (up : UpstreamOutcome) (h : strFalsy orderId = true) :
    handle cfg orderId up =
      .ok ⟨⟨400, errObj "Order ID (channel_order_no) is required."⟩, none⟩ := by
  unfold handle
  rw [h]
  simp

/-- C3 witness: an absent channel_order_no yields 400 and no outbound
call, even with the credential unset. -/
theorem relay_missing_orderId_witness :
    handle ⟨demoBase, none⟩ none .fetchReject =
      .ok ⟨⟨400, errObj "Order ID (channel_order_no) is required."⟩, none⟩ :=
  relay_missing_orderId ⟨demoBase, none⟩ none .fetchReject rfl

/-- C4: for every request with a non-empty orderId, when the token is
unset or empty the handler responds 500 with the exact error body and
issues no outbound call. -/
theorem relay_missing_token (cfg : Config) (orderId : Option JSStr)
    (up : UpstreamOutcome) (ho : strFalsy orderId = false)
    (ht : tokenFalsy cfg.apiToken = true) :
    handle cfg orderId up =
      .ok ⟨⟨500, errObj "Tracking service API token configuration error on server. Please contact support."⟩, none⟩ := by
  unfold handle
  rw [ho, ht]
  simp

/-- C4 witness: a nonempty orderId with no token configured yields 500
and no outbound call. -/
theorem relay_missing_token_witness :
    handle ⟨demoBase, none⟩ (some [65]) .fetchReject =
      .ok ⟨⟨500, errObj "Tracking service API token configuration error on server. Please contact support."⟩, none⟩ :=
  relay_missing_token ⟨demoBase, none⟩ (some [65]) .fetchReject rfl rfl

/-- C5: for every request whose outbound fetch rejects (network, DNS,
TLS, timeout) after the call was issued, the handler responds 503 with
the fixed service-unavailable body. -/
theorem relay_fetch_reject_503 (cfg : Config) (orderId : Option JSStr)
    (r : HandlerResult) (h : handle cfg orderId .fetchReject = .ok r)
    (hs : r.sent.isSome) :
    r.response =
      ⟨503, errObj "Service Unavailable. Failed to connect to the tracking service via proxy."⟩ :=
  handle_sent_response cfg orderId .fetchReject r h hs

/-- C5 witness: a rejected fetch yields the 503 envelope. -/
theorem relay_fetch_reject_503_witness :
    (⟨⟨503, errObj "Service Unavailable. Failed to connect to the tracking service via proxy."⟩,
      some (demoReq "AB")⟩ : HandlerResult).response =
      ⟨503, errObj "Service Unavailable. Failed to connect to the tracking service via proxy."⟩ :=
  relay_fetch_reject_503 demoCfg (some [65, 66]) _ rfl rfl

/-- C6: the code, not the claim, is at fault here: a lone UTF-16
surrogate in a non-empty orderId with the token configured makes
encodeURIComponent throw a URIError before the try block, so the handler
run ends in an escaped exception (Except.error) instead of a JSON
response, contradicting the never-throw contract. -/
theorem relay_escapes_on_lone_surrogate :
    handle demoCfg (some [0xD800]) (.done 200 (some Json.null)) = .error () :=
  rfl

/-- C7: every outbound request the handler issues is a GET to the base
URL with the percent-encoded channel_order_no appended, carries exactly
the Content-Type, Accept and access-token headers with the configured
token, and has no body. -/
theorem relay_outbound_request_shape (cfg : Config) (orderId : Option JSStr)
    (up : UpstreamOutcome) (r : HandlerResult) (q : OutboundRequest)
    (enc tok : String) (h : handle cfg orderId up = .ok r)
    (hq : r.sent = some q)
    (he : encodeURIComponent (orderId.getD []) = .ok enc)
    (htok : cfg.apiToken = some tok) :
    q.method = "GET" ∧
    q.url = cfg.apiUrlBase ++ "?channel_order_no=" ++ enc ∧
    q.headers = [("Content-Type", "application/json"),
                 ("Accept", "application/json"), ("access-token", tok)] ∧
    q.reqBody = none := by
  unfold handle at h
  split at h
  · injection h with h
    subst h
    exact Option.noConfusion hq
  · split at h
    · injection h with h
      subst h
      exact Option.noConfusion hq
    · split at h
      · exact Except.noConfusion h
      · next enc2 heq =>
        rw [he] at heq
        injection heq with heq
        subst heq
        cases up with
        | fetchReject =>
          injection h with h
          subst h
          injection hq with hq
          subst hq
          exact ⟨rfl, rfl, by simp [htok], rfl⟩
        | textReject st =>
          injection h with h
          subst h
          injection hq with hq
          subst hq
          exact ⟨rfl, rfl, by simp [htok], rfl⟩
        | done s p =>
          cases p with
          | none =>
            injection h with h
            subst h
            injection hq with hq
            subst hq
            exact ⟨rfl, rfl, by simp [htok], rfl⟩
          | some v =>
            injection h with h
            subst h
            injection hq with hq
            subst hq
            exact ⟨rfl, rfl, by simp [htok], rfl⟩

/-- C7 witness: the order id A B and C with a space and an ampersand
(code units 65 32 66 38 67) appears percent-encoded as A%20B%26C in the
outbound URL, with the GET method, the three headers and no body. -/
theorem relay_outbound_request_shape_witness :
    (demoReq "A%20B%26C").method = "GET" ∧
    (demoReq "A%20B%26C").url = demoCfg.apiUrlBase ++ "?channel_order_no=" ++ "A%20B%26C" ∧
    (demoReq "A%20B%26C").headers = [("Content-Type", "application/json"),
                 ("Accept", "application/json"), ("access-token", "tok")] ∧
    (demoReq "A%20B%26C").reqBody = none :=
  relay_outbound_request_shape demoCfg (some [65, 32, 66, 38, 67])
    (.done 200 (some Json.null)) _ _ "A%20B%26C" "tok" rfl rfl rfl rfl

/-- C8: the handler keeps no state across requests: in any two batches,
the run on an identical (configuration, request, upstream outcome)
triple produces the identical result, regardless of what was processed
before it. -/
theorem relay_stateless (p q : List (Config × Option JSStr × UpstreamOutcome))
    (cfg : Config) (orderId : Option JSStr) (up : UpstreamOutcome) :
    (handleAll (p ++ [(cfg, orderId, up)])).getLast? =
    (handleAll (q ++ [(cfg, orderId, up)])).getLast? := by
  simp [handleAll]

/-- C9: a parsed upstream body that is not a JSON object (null, number,
string or array) still takes the pass-through path: the handler forwards
it verbatim with the upstream status, and the invalid-response envelope
is never produced for a body JSON.parse accepted. -/
theorem relay_nonobject_json_passthrough (cfg : Config) (orderId : Option JSStr)
    (s : Nat) (v : Json) (r : HandlerResult)
    (h : handle cfg orderId (.done s (some v)) = .ok r) (hs : r.sent.isSome)
    (hv : v.isObj = false) :
    r.response = ⟨s, v⟩ :=
  handle_sent_response cfg orderId (.done s (some v)) r h hs

/-- C9 witness: an upstream 200 whose body parses to JSON null is
forwarded verbatim as null with status 200. -/
theorem relay_nonobject_json_passthrough_witness :
    (⟨⟨200, Json.null⟩, some (demoReq "AB")⟩ : HandlerResult).response =
      ⟨200, Json.null⟩ :=
  relay_nonobject_json_passthrough demoCfg (some [65, 66]) 200 Json.null _
    rfl rfl rfl

/-- C10: when the upstream response arrives but reading its body text
rejects mid-stream, the outer catch maps it to the 503 transport-failure
envelope, not to the invalid-response envelope. -/
theorem relay_text_reject_503 (cfg : Config) (orderId : Option JSStr)
    (st : Nat) (r : HandlerResult)
    (h : handle cfg orderId (.textReject st) = .ok r) (hs : r.sent.isSome) :
    r.response =
      ⟨503, errObj "Service Unavailable. Failed to connect to the tracking service via proxy."⟩ :=
  handle_sent_response cfg orderId (.textReject st) r h hs

/-- C10 witness: a body read that rejects after a 200 response line
yields the 503 envelope. -/
theorem relay_text_reject_503_witness :
    (⟨⟨503, errObj "Service Unavailable. Failed to connect to the tracking service via proxy."⟩,
      some (demoReq "AB")⟩ : HandlerResult).response =
      ⟨503, errObj "Service Unavailable. Failed to connect to the tracking service via proxy."⟩ :=
  relay_text_reject_503 demoCfg (some [65, 66]) 200 _ rfl rfl

end ParcelXProxy
